import Mathlib

/-!
Verification development for the pySage50 repository (`pysage50/sage.py`).

The Python module extracts accounting data from a Sage Line 50 database into
three cached tables, and offers lookup/aggregation operations used to
reconcile externally supplied remittance documents against the ledger.

This file is a shallow embedding of that module:
* pandas dataframes become `List`s of typed rows;
* currency amounts become `Rat` (the source stores currency-precision
  decimals; `luca.p` money-rounding becomes rounding to 2 decimal places);
* Python exceptions become `Except` / explicit outcome types;
* Python's dynamically typed `==` (which compares a string column against an
  integer without error, yielding `False` on a type mismatch) is embedded by
  `pyEq` on a dynamic value type.
-/

/-- A calendar date (the source's pandas timestamps are only ever used at
day granularity: filtering and `strftime` formatting). -/
structure SDate where
  year : Nat
  month : Nat
  day : Nat
  deriving DecidableEq, Repr

/-- Chronological key: lexicographic year/month/day, as a single `Nat`
(monotone for calendar dates, so `≤` on keys is the pandas date order). -/
def SDate.key (d : SDate) : Nat := d.year * 10000 + d.month * 100 + d.day

/-- `strftime` format used in the source's summary strings. -/
def SDate.fmt (d : SDate) : String :=
  toString d.year ++ "-" ++ toString d.month ++ "-" ++ toString d.day

def is_leap (y : Nat) : Bool := (y % 4 == 0 && y % 100 != 0) || (y % 400 == 0)

def days_in_month (y m : Nat) : Nat :=
  if m == 2 then (if is_leap y then 29 else 28)
  else if m == 4 || m == 6 || m == 9 || m == 11 then 30
  else 31

/-- `date + pd.offsets.MonthEnd(0)`: the last day of the month containing
the date. -/
def month_end (d : SDate) : SDate := ⟨d.year, d.month, days_in_month d.year d.month⟩

/-- `(date + pd.offsets.MonthEnd(0)) - pd.offsets.MonthBegin(1)`: the first
day of the month containing the date. -/
def month_start (d : SDate) : SDate := ⟨d.year, d.month, 1⟩

/-- One row of `sqldata`: the columns of the `sage_all_data` query
(`AUDIT_JOURNAL` joined to `NOMINAL_LEDGER` and `AUDIT_HEADER`).
`ACCOUNT_REF` and `INV_REF` are string columns (the source's own restore
pass in `get_dataframe_sage_odbc_query` coerces them back to `str`, and
`using_reference_get` compares them against string literals). -/
structure LedgerEntry where
  TRAN_NUMBER : Int
  TYPE : String
  DATE : SDate
  ACCOUNT_REF : String
  ALT_REF : String
  INV_REF : String
  DETAILS : String
  TAX_CODE : Int
  AMOUNT : Rat
  FOREIGN_AMOUNT : Rat
  BANK_FLAG : Int
  DATE_BANK_RECONCILED : Option SDate
  EXTRA_REF : String
  PAID_FLAG : String
  OUTSTANDING : Rat
  deriving DecidableEq, Repr

/-- One row of the `sage_all_invoices` query (`INVOICE` table). Note this
query selects neither `ACCOUNT_REF` nor `INV_REF`. -/
structure InvoiceHeader where
  INVOICE_NUMBER : Int
  DEL_NAME : String
  DEL_ADDRESS_1 : String
  DEL_ADDRESS_2 : String
  DEL_ADDRESS_3 : String
  DEL_ADDRESS_4 : String
  DEL_ADDRESS_5 : String
  CARR_NET : Rat
  CARR_TAX : Rat
  CARR_GROSS : Rat
  SETTLEMENT_DUE_DAYS : Int
  ORDER_NUMBER : String
  CUST_ORDER_NUMBER : String
  deriving DecidableEq, Repr

/-- One row of the `sage_all_invoice_lines` query (`INVOICE_ITEM` table).
It also selects neither `ACCOUNT_REF` nor `INV_REF`. -/
structure InvoiceLine where
  INVOICE_NUMBER : Int
  ITEM_NUMBER : Int
  DESCRIPTION : String
  TEXT : String
  STOCK_CODE : String
  COMMENT_1 : String
  COMMENT_2 : String
  UNIT_OF_SALE : String
  QUANTITY : Rat
  UNIT_PRICE : Rat
  DISCOUNT_AMOUNT : Rat
  DISCOUNT_RATE : Rat
  TAX_CODE : Int
  TAX_RATE : Rat
  NET_AMOUNT : Rat
  TAX_AMOUNT : Rat
  GROSS_AMOUNT : Rat
  deriving DecidableEq, Repr

/-- `luca.p`: canonical money rounding to currency (2 decimal place)
precision, used for all monetary results and comparisons.  Rounding half
up: `Rat.floor (100 x + 1/2) / 100` is `round (100 x) / 100`. -/
def p (x : Rat) : Rat := (((100 * x + 1/2).floor : Int) : Rat) / 100

/-- A rational is at currency precision: an integer number of pennies. -/
def IsPenny (x : Rat) : Prop := ∃ k : Int, x = (k : Rat) / 100

/-- Python exceptions raised by the module's lookup layer.  The source
raises `PySageError` with two distinct messages ("No data found …" and
"Unmatched get field …"); `float(x)/0.0` raises `ZeroDivisionError`,
which is not a `PySageError`. -/
inductive PyError where
  | notFound (i : String)
  | unsupportedField (field : String)
  | zeroDivision
  deriving DecidableEq, Repr

/-- Whether the exception is an instance of `PySageError` (what an
`except PySageError` clause catches). -/
def PyError.isPySage : PyError → Bool
  | .notFound _ => true
  | .unsupportedField _ => true
  | .zeroDivision => false

/-- A dynamically typed Python value as returned by `using_reference_get`
(and stored in remittance-document columns). -/
inductive SageValue where
  | vInt (n : Int)
  | vRat (q : Rat)
  | vStr (s : String)
  | vDate (d : SDate)
  | vOptDate (d : Option SDate)
  deriving DecidableEq, Repr

/-- Python `==` between dynamically typed values: equal only when the types
agree and the payloads are equal; a type mismatch (e.g. a string column
compared against an `int`) silently yields `False`. -/
def pyEq : SageValue → SageValue → Bool
  | .vInt a, .vInt b => a == b
  | .vRat a, .vRat b => a == b
  | .vStr a, .vStr b => a == b
  | .vDate a, .vDate b => a == b
  | .vOptDate a, .vOptDate b => a == b
  | _, _ => false

/-- Python string slicing `s[:n]` for a non-negative count: at most the
first `n` characters. -/
def pyTake (s : String) (n : Nat) : String := ⟨s.data.take n⟩

/-- The row filter used throughout `using_reference_get`:
`TYPE.isin(record_type) & (ACCOUNT_REF == acct) & (INV_REF == str(i))`. -/
def ref_filter (sqldata : List LedgerEntry) (record_type : List String)
    (i : String) (acct : String) : List LedgerEntry :=
  sqldata.filter (fun e =>
    record_type.contains e.TYPE && e.ACCOUNT_REF == acct && e.INV_REF == i)

/-- `df['AMOUNT'].sum()`. -/
def sumAmount (l : List LedgerEntry) : Rat := (l.map (fun e => e.AMOUNT)).sum

/-- `df['FOREIGN_AMOUNT'].sum()`. -/
def sumForeign (l : List LedgerEntry) : Rat := (l.map (fun e => e.FOREIGN_AMOUNT)).sum

/-- `Sage.using_reference_get(i, field, numchars=30, record_type=['SI'])`.

Filters `sqldata` to the debtors-control account `'1100'` rows whose
`TYPE` is in `record_type` and whose `INV_REF` equals `str(i)`, raises
`PySageError` ("No data found …") on an empty match set, and otherwise
dispatches on the field name exactly as the source's `elif` chain does.
`TAX_RATE` divides by the negated `AMOUNT` sum over the account `'4000'`
(net sales) match set, raising `ZeroDivisionError` when that denominator
is zero. -/
def using_reference_get (sqldata : List LedgerEntry) (i : String) (field : String)
    (numchars : Nat) (record_type : List String) : Except PyError SageValue :=
  match ref_filter sqldata record_type i "1100" with
  | [] => .error (.notFound i)
  | e0 :: tl =>
    match field with
    | "TRAN_NUMBER" => .ok (.vInt e0.TRAN_NUMBER)
    | "DATE" => .ok (.vDate e0.DATE)
    | "TYPE" => .ok (.vStr e0.TYPE)
    | "ACCOUNT_REF" => .ok (.vStr e0.ACCOUNT_REF)
    | "ALT_REF" => .ok (.vStr e0.ALT_REF)
    | "INV_REF" => .ok (.vStr e0.INV_REF)
    | "TAX_CODE" => .ok (.vInt e0.TAX_CODE)
    | "BANK_FLAG" => .ok (.vInt e0.BANK_FLAG)
    | "DATE_BANK_RECONCILED" => .ok (.vOptDate e0.DATE_BANK_RECONCILED)
    | "OUTSTANDING" => .ok (.vRat (p e0.OUTSTANDING))
    | "AMOUNT" => .ok (.vRat (p (sumAmount (e0 :: tl))))
    | "FOREIGN_AMOUNT" => .ok (.vRat (p (sumForeign (e0 :: tl))))
    | "GROSS_AMOUNT" => .ok (.vRat (p (sumAmount (e0 :: tl))))
    | "NET_AMOUNT" =>
      .ok (.vRat (p (sumAmount (e0 :: tl)
        + sumAmount (ref_filter sqldata record_type i "2200"))))
    | "TAX_AMOUNT" =>
      .ok (.vRat (p (- sumAmount (ref_filter sqldata record_type i "2200"))))
    | "TAX_RATE" =>
      if - sumAmount (ref_filter sqldata record_type i "4000") = 0 then
        .error .zeroDivision
      else
        .ok (.vRat (100 * (sumAmount (e0 :: tl)
          / (- sumAmount (ref_filter sqldata record_type i "4000")) - 1)))
    | "DETAILS" =>
      .ok (.vStr (pyTake (String.join ((e0 :: tl).map (fun e => e.DETAILS))) numchars))
    | "EXTRA_REF" =>
      .ok (.vStr (pyTake (String.join ((e0 :: tl).map (fun e => e.EXTRA_REF))) numchars))
    | other => .error (.unsupportedField other)

/-- A row of the externally supplied remittance document, with its three
predefined columns `'Your Ref'`, `'Member Code'` and `'Document Type'`. -/
structure RemRow where
  Your_Ref : String
  Member_Code : String
  Document_Type : String
  deriving DecidableEq, Repr

/-- The remittance document: a row table plus its `checked` flag. -/
structure RemittanceDoc where
  df : List RemRow
  checked : Bool
  deriving DecidableEq, Repr

/-- `Sage.get_field(row, field)`: returns `None` (no enrichment) for the
excluded member codes `'4552'`/`'4424'` and for document types other than
`'Invoice'`/`'Credit Note'`; looks invoices up as `'SI'`; looks credit
notes up as `'SC'` and, when that raises a `PySageError`, retries the same
lookup as `'SI'`. -/
def get_field (sqldata : List LedgerEntry) (row : RemRow) (field : String) :
    Except PyError (Option SageValue) :=
  if row.Member_Code == "4552" || row.Member_Code == "4424" then
    .ok none
  else if row.Document_Type == "Invoice" then
    (using_reference_get sqldata row.Your_Ref field 30 ["SI"]).map some
  else if row.Document_Type == "Credit Note" then
    match using_reference_get sqldata row.Your_Ref field 30 ["SC"] with
    | .ok v => .ok (some v)
    | .error e =>
      if e.isPySage then
        (using_reference_get sqldata row.Your_Ref field 30 ["SI"]).map some
      else
        .error e
  else
    .ok none

/-- `remittance_doc.df.apply(lambda row: self.get_field(row, field), axis=1)`:
one value per row, aborting with the first row's exception. -/
def get_series (sqldata : List LedgerEntry) (rows : List RemRow) (field : String) :
    Except PyError (List (Option SageValue)) :=
  match rows with
  | [] => .ok []
  | r :: rest =>
    match get_field sqldata r field, get_series sqldata rest field with
    | .error e, _ => .error e
    | .ok _, .error e => .error e
    | .ok v, .ok vs => .ok (v :: vs)

/-- `series / 100` applied to the `TAX_RATE` column (skipped `None` entries
stay `None`). -/
def div100 (c : List (Option SageValue)) : List (Option SageValue) :=
  c.map (fun v =>
    match v with
    | some (SageValue.vRat q) => some (SageValue.vRat (q / 100))
    | x => x)

/-- Extract the numeric entries of a column (`None` entries are skipped by
pandas `sum`). -/
def optRat : Option SageValue → Option Rat
  | some (SageValue.vRat q) => some q
  | _ => none

/-- `column.sum()` with pandas `skipna` semantics. -/
def colSum (c : List (Option SageValue)) : Rat := (c.filterMap optRat).sum

/-- The remittance document after the five enrichment columns have been
written back into it. -/
structure EnrichedDoc where
  df : List RemRow
  Account_Ref : List (Option SageValue)
  Sage_Net_Amount : List (Option SageValue)
  Sage_Gross_Amount : List (Option SageValue)
  Sage_VAT_Amount : List (Option SageValue)
  Sage_Tax_Rate : List (Option SageValue)
  checked : Bool
  deriving DecidableEq, Repr

/-- The column-writing phase of `Sage.enrich_remittance_doc` (lines
assigning `Account_Ref`, `Sage_Net_Amount`, `Sage_Gross_Amount`,
`Sage_VAT_Amount`, `Sage_Tax_Rate`), in source order; any lookup
exception aborts the enrichment. -/
def build_enriched (sqldata : List LedgerEntry) (doc : RemittanceDoc) :
    Except PyError EnrichedDoc :=
  match get_series sqldata doc.df "ALT_REF" with
  | .error e => .error e
  | .ok accountRef =>
    match get_series sqldata doc.df "NET_AMOUNT" with
    | .error e => .error e
    | .ok netCol =>
      match get_series sqldata doc.df "GROSS_AMOUNT" with
      | .error e => .error e
      | .ok grossCol =>
        match get_series sqldata doc.df "TAX_AMOUNT" with
        | .error e => .error e
        | .ok vatCol =>
          match get_series sqldata doc.df "TAX_RATE" with
          | .error e => .error e
          | .ok taxRateCol =>
            .ok ⟨doc.df, accountRef, netCol, grossCol, vatCol,
                 div100 taxRateCol, doc.checked⟩

/-- `df[df['Member Code'] != '4552']['Sage_Gross_Amount'].sum()`: the gross
sum excluding the discount-code (`'4552'`) rows. -/
def gross_sum_ex_discount (ed : EnrichedDoc) : Rat :=
  colSum (((ed.df.zip ed.Sage_Gross_Amount).filter
    (fun rv => rv.1.Member_Code != "4552")).map Prod.snd)

/-- Outcome of `Sage.enrich_remittance_doc`: completion, one of the two
document-level `PySageError`s (the spec's `ReconciliationError`s, carrying
the mutated document), or a lookup exception escaping from the
column-writing phase. -/
inductive EnrichOutcome where
  | ok (d : EnrichedDoc)
  | internalSumError (d : EnrichedDoc)
  | grossMismatchError (d : EnrichedDoc)
  | lookupError (e : PyError)
  deriving DecidableEq, Repr

/-- `Sage.enrich_remittance_doc(remittance_doc)`: writes the five derived
columns; then checks `p(net + vat) != p(gross)` (raising and setting
`checked = False` first), then `gross != gross_sum_ex_discount` (likewise). -/
def enrich_remittance_doc (sqldata : List LedgerEntry) (doc : RemittanceDoc) :
    EnrichOutcome :=
  match build_enriched sqldata doc with
  | .error e => .lookupError e
  | .ok ed =>
    if p (colSum ed.Sage_Net_Amount + colSum ed.Sage_VAT_Amount)
        ≠ p (colSum ed.Sage_Gross_Amount) then
      .internalSumError { ed with checked := false }
    else if colSum ed.Sage_Gross_Amount ≠ gross_sum_ex_discount ed then
      .grossMismatchError { ed with checked := false }
    else
      .ok ed

/-- `check_cache_upto_date()`: reads the stored high-water-mark (`none`
models an absent or unparseable `SageODBC_check.json`, read as `0`), always
writes back the current maximum transaction number, and returns `True`
exactly when the stored mark is `0` or differs from the current one.
Result: `(update_cache, newly stored mark)`. -/
def check_cache_upto_date (stored_read : Option Int)
    (max_transaction_in_sage : Int) : Bool × Int :=
  let max_transaction_stored := stored_read.getD 0
  ((max_transaction_stored == 0) || (max_transaction_stored != max_transaction_in_sage),
   max_transaction_in_sage)

/-- Where a cached table came from in a given `load_data` run. -/
inductive Origin where
  | fresh
  | snapshot
  deriving DecidableEq, Repr

/-- The uncaught Python exception of the memoised-load path: the restore
loop `df[fn] = df[fn].astype('str')` for `fn ∈ ['ACCOUNT_REF','INV_REF']`
raises `KeyError` on a table lacking those columns (`KeyError` is not in
the `except (FileNotFoundError, ValueError)` clause). -/
inductive LoadError where
  | keyError
  deriving DecidableEq, Repr

/-- `get_dataframe_sage_odbc_query(sql, name, cache_upto_date)`.
`snap = none` models a missing or unparseable `name + '.json'`
(`FileNotFoundError`/`ValueError`, caught and treated as a stale cache);
`has_ref_columns` records whether the table has the `ACCOUNT_REF` and
`INV_REF` columns the restore loop indexes (true only for the
`sage_all_data` query). The snapshot's restore pass is the identity on
this typed model. -/
def get_dataframe_sage_odbc_query {α : Type} (has_ref_columns : Bool)
    (live : α) (snap : Option α) (cache_upto_date : Bool) :
    Except LoadError (α × Origin) :=
  if cache_upto_date then
    match snap with
    | some t =>
      if has_ref_columns then .ok (t, Origin.snapshot)
      else .error .keyError
    | none => .ok (live, Origin.fresh)
  else .ok (live, Origin.fresh)

/-- The external collaborators of `load_data`: the live Ledger Source
(three query results plus the distinguished maximum-transaction query) and
the Snapshot Store (three optional persisted tables plus the stored mark). -/
structure LedgerSource where
  live_entries : List LedgerEntry
  live_invoices : List InvoiceHeader
  live_invoice_lines : List InvoiceLine
  snap_entries : Option (List LedgerEntry)
  snap_invoices : Option (List InvoiceHeader)
  snap_invoice_lines : Option (List InvoiceLine)
  stored_mark : Option Int
  max_transaction : Int

/-- The `cache_is_upto_date` local of `Sage.load_data`: `False` when
`update_cache` is requested, else the value returned by
`check_cache_upto_date()`. -/
def cache_flag (src : LedgerSource) (update_cache : Bool) : Bool :=
  if !update_cache then (check_cache_upto_date src.stored_mark src.max_transaction).1
  else false

/-- `Sage.load_data(update_cache)`: fetches the three tables in source
order (`SageODBC`, `SageInvoices`, `SageInvoiceLines`), passing the same
`cache_is_upto_date` flag to each `get_dataframe_sage_odbc_query` call.
Returns each table with the origin it was actually produced from. -/
def load_data (src : LedgerSource) (update_cache : Bool) :
    Except LoadError ((List LedgerEntry × Origin) × (List InvoiceHeader × Origin)
      × (List InvoiceLine × Origin)) :=
  match get_dataframe_sage_odbc_query true src.live_entries src.snap_entries
      (cache_flag src update_cache) with
  | .error e => .error e
  | .ok sqldata =>
    match get_dataframe_sage_odbc_query false src.live_invoices src.snap_invoices
        (cache_flag src update_cache) with
    | .error e => .error e
    | .ok invoices =>
      match get_dataframe_sage_odbc_query false src.live_invoice_lines
          src.snap_invoice_lines (cache_flag src update_cache) with
      | .error e => .error e
      | .ok invoice_lines => .ok (sqldata, invoices, invoice_lines)

/-- `Sage.check_for_transactions_in_the_month(journal_type, account, date)`.
As in the source, `journal_type` is never used in the body; the account
filter is `sqldata['ACCOUNT_REF'] == int(account)` — a Python `==` between
the string-typed `ACCOUNT_REF` column and an integer, embedded by `pyEq`.
Returns `(found, 0, comment)`. -/
def check_for_transactions_in_the_month (sqldata : List LedgerEntry)
    (journal_type : String) (account : Int) (date : SDate) :
    Bool × Int × String :=
  let en := month_end date
  let st := month_start date
  let test2 := sqldata.filter (fun e => pyEq (.vStr e.ACCOUNT_REF) (.vInt account))
  let test1 := test2.filter (fun e => st.key ≤ e.DATE.key)
  let test := test1.filter (fun e => e.DATE.key ≤ en.key)
  match test with
  | [] =>
    (false, 0, "Found no transactions from " ++ st.fmt ++ " upto " ++ en.fmt ++ ".")
  | t0 :: _ =>
    (true, 0, "Found " ++ toString test.length ++ " transactions from "
      ++ st.fmt ++ " upto " ++ en.fmt ++ ". First was on " ++ t0.DATE.fmt
      ++ ": details " ++ t0.DETAILS ++ ": for " ++ toString (p t0.AMOUNT) ++ ".")

/-- The `Singleton` metaclass's `__call__`: constructs an instance only
when none is stored yet (a constructed `Sage` object is always truthy, so
`not cls.instance` is exactly `instance is None`); later calls return the
stored instance, whatever their arguments.  Returns the call's result
together with the new `cls.instance` state. -/
def Singleton_call {α β : Type} (construct : β → Except Unit α) (args : β)
    (inst : Option α) : Except Unit α × Option α :=
  match inst with
  | some i => (.ok i, some i)
  | none =>
    match construct args with
    | .ok i => (.ok i, some i)
    | .error e => (.error e, none)

/-! ### Generic lemmas about money rounding and columns -/

/-- Batteries' `Rat.floor` agrees with Mathlib's `Int.floor`. -/
theorem Ratfloor_eq_intFloor (q : Rat) : (q.floor : Int) = ⌊q⌋ := by
  rw [Rat.floor_def, Rat.floor_def']

/-- `p` is rounding half up: `round (100 x) / 100`. -/
theorem p_eq_round (x : Rat) : p x = ((round (100 * x) : Int) : Rat) / 100 := by
  rw [p, Ratfloor_eq_intFloor, round_eq]

/-- Evaluation rule for `p` at a concrete input, by bounding the scaled
value between the target penny count and its successor. -/
theorem p_eval (x : Rat) (k : Int) (h1 : (k : Rat) ≤ 100 * x + 1/2)
    (h2 : 100 * x + 1/2 < (k : Rat) + 1) : p x = (k : Rat) / 100 := by
  rw [p, Ratfloor_eq_intFloor, Int.floor_eq_iff.mpr ⟨h1, h2⟩]

theorem isPenny_p (x : Rat) : IsPenny (p x) := ⟨(100 * x + 1/2).floor, rfl⟩

theorem isPenny_zero : IsPenny 0 := ⟨0, by norm_num⟩

theorem isPenny_add {x y : Rat} (hx : IsPenny x) (hy : IsPenny y) : IsPenny (x + y) := by
  obtain ⟨k, rfl⟩ := hx
  obtain ⟨m, rfl⟩ := hy
  exact ⟨k + m, by push_cast; ring⟩

/-- Money rounding is the identity on values already at currency precision. -/
theorem p_fix (x : Rat) (hx : IsPenny x) : p x = x := by
  obtain ⟨k, rfl⟩ := hx
  rw [p_eq_round]
  rw [show (100 : Rat) * ((k : Rat) / 100) = (k : Rat) from by
    rw [mul_comm]; exact div_mul_cancel₀ _ (by norm_num)]
  rw [round_intCast]

/-- A list sum of penny-precision values is at penny precision. -/
theorem isPenny_sum (l : List Rat) (h : ∀ x ∈ l, IsPenny x) : IsPenny l.sum := by
  induction l with
  | nil => simpa using isPenny_zero
  | cons a t ih =>
    rw [List.sum_cons]
    exact isPenny_add (h a (by simp)) (ih fun x hx => h x (by simp [hx]))

/-- A column sum is at penny precision when every numeric entry is. -/
theorem isPenny_colSum (c : List (Option SageValue))
    (h : ∀ v ∈ c, ∀ q : Rat, optRat v = some q → IsPenny q) :
    IsPenny (colSum c) := by
  refine isPenny_sum _ ?_
  intro x hx
  obtain ⟨v, hv, hvq⟩ := List.mem_filterMap.mp hx
  exact h v hv x hvq

/-- On penny-precision operands, exact equality and equality after money
rounding coincide. -/
theorem p_eq_p_iff (a b : Rat) (ha : IsPenny a) (hb : IsPenny b) :
    (p a = p b) ↔ a = b := by
  rw [p_fix a ha, p_fix b hb]

/-- Python's `s[:n]` never yields more than `n` characters. -/
theorem pyTake_length (s : String) (n : Nat) : (pyTake s n).length ≤ n := by
  show (s.data.take n).length ≤ n
  rw [List.length_take]
  exact min_le_left _ _

/-! ### Branch lemmas for `using_reference_get` -/

/-- An empty match set yields the "No data found …" `PySageError`,
whatever the requested field. -/
theorem using_reference_get_nil (sqldata : List LedgerEntry) (i field : String)
    (numchars : Nat) (record_type : List String)
    (hf : ref_filter sqldata record_type i "1100" = []) :
    using_reference_get sqldata i field numchars record_type = .error (.notFound i) := by
  unfold using_reference_get
  rw [hf]

/-- C1 (amended): on a non-empty debtors-control (`'1100'`) match set and a
non-zero `AMOUNT` sum over the account-`'4000'` (net sales) match set,
`TAX_RATE` is `100 * (debtors_sum / (- sales_sum) - 1)` — the denominator
is the negated sales-account sum, not the VAT-control (`'2200'`) sum. -/
theorem tax_rate_uses_sales_account (sqldata : List LedgerEntry) (i : String)
    (numchars : Nat) (record_type : List String)
    (h1 : ref_filter sqldata record_type i "1100" ≠ [])
    (h2 : sumAmount (ref_filter sqldata record_type i "4000") ≠ 0) :
    using_reference_get sqldata i "TAX_RATE" numchars record_type =
      .ok (.vRat (100 * (sumAmount (ref_filter sqldata record_type i "1100")
        / (- sumAmount (ref_filter sqldata record_type i "4000")) - 1))) := by
  obtain ⟨e0, tl, he⟩ := List.exists_cons_of_ne_nil h1
  have hred : using_reference_get sqldata i "TAX_RATE" numchars record_type =
      (if - sumAmount (ref_filter sqldata record_type i "4000") = 0 then
        (.error .zeroDivision : Except PyError SageValue)
       else .ok (.vRat (100 * (sumAmount (e0 :: tl)
        / (- sumAmount (ref_filter sqldata record_type i "4000")) - 1)))) := by
    unfold using_reference_get
    rw [he]
    rfl
  rw [hred, if_neg (fun hc => h2 (neg_eq_zero.mp hc)), he]

/-- On a non-empty match set, `DETAILS` is the concatenation over the
matches, sliced to `numchars` characters. -/
theorem using_reference_get_details (sqldata : List LedgerEntry) (i : String)
    (numchars : Nat) (record_type : List String)
    (h1 : ref_filter sqldata record_type i "1100" ≠ []) :
    using_reference_get sqldata i "DETAILS" numchars record_type =
      .ok (.vStr (pyTake (String.join ((ref_filter sqldata record_type i "1100").map
        (fun e => e.DETAILS))) numchars)) := by
  obtain ⟨e0, tl, he⟩ := List.exists_cons_of_ne_nil h1
  have hred : using_reference_get sqldata i "DETAILS" numchars record_type =
      .ok (.vStr (pyTake (String.join ((e0 :: tl).map (fun e => e.DETAILS))) numchars)) := by
    unfold using_reference_get
    rw [he]
    rfl
  rw [hred, he]

/-- On a non-empty match set, `EXTRA_REF` is the concatenation over the
matches, sliced to `numchars` characters. -/
theorem using_reference_get_extra_ref (sqldata : List LedgerEntry) (i : String)
    (numchars : Nat) (record_type : List String)
    (h1 : ref_filter sqldata record_type i "1100" ≠ []) :
    using_reference_get sqldata i "EXTRA_REF" numchars record_type =
      .ok (.vStr (pyTake (String.join ((ref_filter sqldata record_type i "1100").map
        (fun e => e.EXTRA_REF))) numchars)) := by
  obtain ⟨e0, tl, he⟩ := List.exists_cons_of_ne_nil h1
  have hred : using_reference_get sqldata i "EXTRA_REF" numchars record_type =
      .ok (.vStr (pyTake (String.join ((e0 :: tl).map (fun e => e.EXTRA_REF))) numchars)) := by
    unfold using_reference_get
    rw [he]
    rfl
  rw [hred, he]

/-- Any successful `GROSS_AMOUNT` lookup returns a money-rounded rational. -/
theorem using_reference_get_gross_shape (sqldata : List LedgerEntry) (i : String)
    (numchars : Nat) (record_type : List String) (w : SageValue)
    (h : using_reference_get sqldata i "GROSS_AMOUNT" numchars record_type = .ok w) :
    ∃ x : Rat, w = .vRat (p x) := by
  cases hf : ref_filter sqldata record_type i "1100" with
  | nil =>
    rw [using_reference_get_nil sqldata i _ numchars record_type hf] at h
    exact absurd h (by simp)
  | cons e0 tl =>
    have hred : using_reference_get sqldata i "GROSS_AMOUNT" numchars record_type =
        .ok (.vRat (p (sumAmount (e0 :: tl)))) := by
      unfold using_reference_get
      rw [hf]
      rfl
    rw [hred] at h
    exact ⟨sumAmount (e0 :: tl), (Except.ok.inj h).symm⟩

/-! ### Claims C5, C6, C9, C10 -/

/-- C5: `check_cache_upto_date` reports stale/update exactly when the
stored mark (absent/corrupt read as `0`) is `0` or differs from the
current mark — an equality check, not an ordering check — and it always
persists the current mark, whatever the outcome. -/
theorem check_cache_upto_date_spec (stored_read : Option Int) (current : Int) :
    ((check_cache_upto_date stored_read current).1 = true ↔
      (stored_read.getD 0 = 0 ∨ stored_read.getD 0 ≠ current)) ∧
    (check_cache_upto_date stored_read current).2 = current := by
  constructor
  · simp [check_cache_upto_date]
  · rfl

/-- C6: when no ledger entry has its type in the record-type list, nominal
account `'1100'` and invoice reference `str(i)`, `using_reference_get`
raises `NotFound` (never a silent zero), for every requested field. -/
theorem using_reference_get_notfound (sqldata : List LedgerEntry) (i field : String)
    (numchars : Nat) (record_type : List String)
    (h : ∀ e ∈ sqldata, ¬(e.TYPE ∈ record_type ∧ e.ACCOUNT_REF = "1100" ∧ e.INV_REF = i)) :
    using_reference_get sqldata i field numchars record_type = .error (.notFound i) := by
  have hf : ref_filter sqldata record_type i "1100" = [] := by
    rw [ref_filter, List.filter_eq_nil_iff]
    intro e he
    have hne := h e he
    simp only [Bool.and_eq_true, beq_iff_eq, not_and]
    intro hmem hinv
    exact hne ⟨by simpa using hmem.1, hmem.2, hinv⟩
  exact using_reference_get_nil sqldata i field numchars record_type hf

/-- C9: on a non-empty match set, `DETAILS` and `EXTRA_REF` return the
match-set concatenation of the field truncated to `numchars` characters,
and the result never exceeds `numchars` characters. -/
theorem details_truncation (sqldata : List LedgerEntry) (i : String)
    (numchars : Nat) (record_type : List String)
    (h1 : ref_filter sqldata record_type i "1100" ≠ []) :
    (using_reference_get sqldata i "DETAILS" numchars record_type =
        .ok (.vStr (pyTake (String.join ((ref_filter sqldata record_type i "1100").map
          (fun e => e.DETAILS))) numchars))
      ∧ (pyTake (String.join ((ref_filter sqldata record_type i "1100").map
          (fun e => e.DETAILS))) numchars).length ≤ numchars)
    ∧ (using_reference_get sqldata i "EXTRA_REF" numchars record_type =
        .ok (.vStr (pyTake (String.join ((ref_filter sqldata record_type i "1100").map
          (fun e => e.EXTRA_REF))) numchars))
      ∧ (pyTake (String.join ((ref_filter sqldata record_type i "1100").map
          (fun e => e.EXTRA_REF))) numchars).length ≤ numchars) :=
  ⟨⟨using_reference_get_details sqldata i numchars record_type h1, pyTake_length _ _⟩,
   ⟨using_reference_get_extra_ref sqldata i numchars record_type h1, pyTake_length _ _⟩⟩

/-- C10: once a first `Singleton`-governed construction has succeeded, any
later call returns the identical stored instance, ignoring its arguments
(and the stored state is unchanged). -/
theorem singleton_idempotent {α β : Type} (construct : β → Except Unit α)
    (args1 args2 : β) (i : α)
    (h : (Singleton_call construct args1 none).1 = .ok i) :
    Singleton_call construct args2 (Singleton_call construct args1 none).2 =
      (.ok i, some i) := by
  unfold Singleton_call at h ⊢
  cases hc : construct args1 with
  | ok j =>
    rw [hc] at h
    have hj : j = i := Except.ok.inj h
    subst hj
    rfl
  | error e =>
    rw [hc] at h
    exact absurd h (by simp)

/-! ### Concrete data for claims C1, C9, C10 -/

/-- Sales invoice ledger lines for reference `"5"`: gross `120` on the
debtors control account. -/
def c1e1 : LedgerEntry :=
  ⟨1001, "SI", ⟨2015, 1, 10⟩, "1100", "A1", "5", "d1", 1, 120, 0, 0, none, "x", "N", 0⟩

/-- VAT control line for reference `"5"`: `-20` on account `'2200'`. -/
def c1e2 : LedgerEntry :=
  ⟨1002, "SI", ⟨2015, 1, 10⟩, "2200", "A1", "5", "d2", 1, -20, 0, 0, none, "x", "N", 0⟩

/-- Net sales line for reference `"5"`: `-100` on account `'4000'`. -/
def c1e3 : LedgerEntry :=
  ⟨1003, "SI", ⟨2015, 1, 10⟩, "4000", "A1", "5", "d3", 1, -100, 0, 0, none, "x", "N", 0⟩

def C1data : List LedgerEntry := [c1e1, c1e2, c1e3]

/-- C1 counterexample: for reference `"5"` the debtors match set is
non-empty and the VAT-control (`'2200'`) sum is non-zero, the claim's
formula over the VAT-control sum gives `500`, yet the code returns `20`
(it divides by the negated account-`'4000'` sum instead). -/
theorem tax_rate_vat_control_counterexample :
    ref_filter C1data ["SI"] "5" "1100" ≠ [] ∧
    sumAmount (ref_filter C1data ["SI"] "5" "2200") ≠ 0 ∧
    100 * (sumAmount (ref_filter C1data ["SI"] "5" "1100")
      / (- sumAmount (ref_filter C1data ["SI"] "5" "2200")) - 1) = 500 ∧
    using_reference_get C1data "5" "TAX_RATE" 30 ["SI"] = .ok (.vRat 20) ∧
    (SageValue.vRat 20 : SageValue) ≠ .vRat 500 := by
  have h1 : ref_filter C1data ["SI"] "5" "1100" = [c1e1] := by
    simp [ref_filter, C1data, c1e1, c1e2, c1e3]
  have h2 : ref_filter C1data ["SI"] "5" "2200" = [c1e2] := by
    simp [ref_filter, C1data, c1e1, c1e2, c1e3]
  have h4 : ref_filter C1data ["SI"] "5" "4000" = [c1e3] := by
    simp [ref_filter, C1data, c1e1, c1e2, c1e3]
  have hs1 : sumAmount [c1e1] = 120 := by simp [sumAmount, c1e1]
  have hs2 : sumAmount [c1e2] = -20 := by simp [sumAmount, c1e2]
  have hs4 : sumAmount [c1e3] = -100 := by simp [sumAmount, c1e3]
  have hred : using_reference_get C1data "5" "TAX_RATE" 30 ["SI"] =
      (if - sumAmount (ref_filter C1data ["SI"] "5" "4000") = 0 then
        (.error .zeroDivision : Except PyError SageValue)
       else .ok (.vRat (100 * (sumAmount [c1e1]
        / (- sumAmount (ref_filter C1data ["SI"] "5" "4000")) - 1)))) := by
    unfold using_reference_get
    rw [h1]
    rfl
  refine ⟨by rw [h1]; simp, by rw [h2, hs2]; norm_num,
    by rw [h1, h2, hs1, hs2]; norm_num, ?_, by simp⟩
  rw [hred, h4, hs4, hs1]
  norm_num

/-- C1 witness: the amended theorem applied to the same ledger lines. -/
theorem tax_rate_uses_sales_account_witness :
    (ref_filter C1data ["SI"] "5" "1100" ≠ [] ∧
     sumAmount (ref_filter C1data ["SI"] "5" "4000") ≠ 0) ∧
    using_reference_get C1data "5" "TAX_RATE" 30 ["SI"] =
      .ok (.vRat (100 * (sumAmount (ref_filter C1data ["SI"] "5" "1100")
        / (- sumAmount (ref_filter C1data ["SI"] "5" "4000")) - 1))) := by
  have hne : ref_filter C1data ["SI"] "5" "1100" ≠ [] := by
    simp [ref_filter, C1data, c1e1, c1e2, c1e3]
  have h4 : sumAmount (ref_filter C1data ["SI"] "5" "4000") ≠ 0 := by
    have hf : ref_filter C1data ["SI"] "5" "4000" = [c1e3] := by
      simp [ref_filter, C1data, c1e1, c1e2, c1e3]
    rw [hf]
    simp [sumAmount, c1e3]
  exact ⟨⟨hne, h4⟩, tax_rate_uses_sales_account C1data "5" 30 ["SI"] hne h4⟩

/-- C6 witness: the spec's own test case — no row matches reference
`"999999"`, so the `AMOUNT` lookup raises `NotFound`. -/
theorem using_reference_get_notfound_witness :
    (∀ e ∈ ([] : List LedgerEntry),
      ¬(e.TYPE ∈ ["SI"] ∧ e.ACCOUNT_REF = "1100" ∧ e.INV_REF = "999999")) ∧
    using_reference_get [] "999999" "AMOUNT" 30 ["SI"] = .error (.notFound "999999") :=
  ⟨by simp, using_reference_get_notfound [] "999999" "AMOUNT" 30 ["SI"] (by simp)⟩

/-- A ledger line whose `DETAILS` concatenation is longer than the
requested `numchars`. -/
def c9e1 : LedgerEntry :=
  ⟨1009, "SI", ⟨2015, 1, 10⟩, "1100", "A9", "9", "abcdefgh", 1, 10, 0, 0, none, "ref45678", "N", 0⟩

def C9data : List LedgerEntry := [c9e1]

/-- C9 witness: an 8-character `DETAILS` concatenation sliced to
`numchars = 5` gives exactly `"abcde"`, within the bound. -/
theorem details_truncation_witness :
    ref_filter C9data ["SI"] "9" "1100" ≠ [] ∧
    using_reference_get C9data "9" "DETAILS" 5 ["SI"] = .ok (.vStr "abcde") ∧
    (pyTake (String.join ((ref_filter C9data ["SI"] "9" "1100").map
      (fun e => e.DETAILS))) 5).length ≤ 5 := by
  have hf : ref_filter C9data ["SI"] "9" "1100" = [c9e1] := by
    simp [ref_filter, C9data, c9e1]
  have hne : ref_filter C9data ["SI"] "9" "1100" ≠ [] := by rw [hf]; simp
  have hthm := details_truncation C9data "9" 5 ["SI"] hne
  refine ⟨hne, ?_, hthm.1.2⟩
  rw [hthm.1.1, hf]
  rfl

/-- A concrete constructor for the singleton witness: doubles its
argument, so a second call with different arguments would be detectable. -/
def c10construct : Nat → Except Unit Nat := fun n => .ok (n * 2)

/-- C10 witness: the first call (argument `21`) constructs instance `42`;
a second call with argument `100` still returns the same `42`. -/
theorem singleton_idempotent_witness :
    (Singleton_call c10construct 21 none).1 = .ok 42 ∧
    Singleton_call c10construct 100 (Singleton_call c10construct 21 none).2 =
      (.ok 42, some 42) :=
  ⟨rfl, singleton_idempotent c10construct 21 100 42 rfl⟩

/-! ### Claim C8: the month checker -/

/-- A `'BP'` journal entry against account `"1100"` dated inside December
2014. -/
def c8e1 : LedgerEntry :=
  ⟨4001, "BP", ⟨2014, 12, 15⟩, "1100", "A8", "", "standing order", 1, 55, 0, 0, none, "x", "N", 0⟩

def C8data : List LedgerEntry := [c8e1]

def c8date : SDate := ⟨2014, 12, 20⟩

/-- C8: evaluation at the failing input.  `C8data` holds an entry of the
requested journal type `"BP"` against account `"1100"` dated within the
calendar month of the query date, yet the checker reports `found = false`
(its filter compares the string `ACCOUNT_REF` column with `int(account)`,
which never matches, and it ignores `journal_type` altogether); the second
tuple component is `0`. -/
theorem check_month_code_bug_eval :
    (c8e1 ∈ C8data ∧ c8e1.TYPE = "BP" ∧ c8e1.ACCOUNT_REF = "1100" ∧
      (month_start c8date).key ≤ c8e1.DATE.key ∧
      c8e1.DATE.key ≤ (month_end c8date).key) ∧
    (check_for_transactions_in_the_month C8data "BP" 1100 c8date).1 = false ∧
    (check_for_transactions_in_the_month C8data "BP" 1100 c8date).2.1 = 0 := by
  refine ⟨⟨by simp [C8data], rfl, rfl, by decide, by decide⟩, ?_, ?_⟩ <;>
    simp [check_for_transactions_in_the_month, C8data, c8e1, pyEq]

/-! ### Claim C2: load_data origins -/

/-- A single ledger row used as snapshot content for the entries table. -/
def c2e1 : LedgerEntry :=
  ⟨5001, "SI", ⟨2015, 2, 1⟩, "1100", "A2", "8", "d", 1, 10, 0, 0, none, "x", "N", 0⟩

/-- A Ledger Source whose entries snapshot is present but whose
invoice-header and invoice-line snapshots are missing, with a stored mark
(`5`) differing from the current one (`7`). -/
def c2src : LedgerSource :=
  ⟨[], [], [], some [c2e1], none, none, some 5, 7⟩

/-- C2 counterexample: one `load_data` run loads the entries table from
its snapshot while fetching both invoice tables fresh — the three cached
tables are not refreshed uniformly. -/
theorem load_data_mixed_origins_counterexample :
    load_data c2src false =
      .ok (([c2e1], Origin.snapshot), (([] : List InvoiceHeader), Origin.fresh),
        (([] : List InvoiceLine), Origin.fresh)) ∧
    Origin.snapshot ≠ Origin.fresh := by
  exact ⟨rfl, by simp⟩

/-- C2 (amended): all three tables are fetched fresh whenever the shared
staleness flag requires updating; otherwise each table is served from its
own snapshot independently — the entries table falls back to a fresh fetch
exactly when its snapshot is absent, while a present invoice-header
snapshot aborts the run with the restore pass's `KeyError` (that table
lacks the `ACCOUNT_REF`/`INV_REF` columns).  Mixed origins in one run are
therefore possible. -/
theorem load_data_per_table_fallback (src : LedgerSource) (u : Bool) :
    (cache_flag src u = false →
      load_data src u = .ok ((src.live_entries, Origin.fresh),
        (src.live_invoices, Origin.fresh), (src.live_invoice_lines, Origin.fresh)))
    ∧ (cache_flag src u = true → src.snap_invoices = none →
        src.snap_invoice_lines = none →
      load_data src u = .ok ((src.snap_entries.getD src.live_entries,
          if src.snap_entries.isSome then Origin.snapshot else Origin.fresh),
        (src.live_invoices, Origin.fresh), (src.live_invoice_lines, Origin.fresh)))
    ∧ (cache_flag src u = true → ∀ t, src.snap_invoices = some t →
      load_data src u = .error .keyError) := by
  refine ⟨?_, ?_, ?_⟩
  · intro hf
    simp [load_data, get_dataframe_sage_odbc_query, hf]
  · intro hf hi hl
    cases hse : src.snap_entries with
    | none => simp [load_data, get_dataframe_sage_odbc_query, hf, hi, hl, hse]
    | some t => simp [load_data, get_dataframe_sage_odbc_query, hf, hi, hl, hse]
  · intro hf t ht
    cases hse : src.snap_entries with
    | none => simp [load_data, get_dataframe_sage_odbc_query, hf, ht, hse]
    | some s => simp [load_data, get_dataframe_sage_odbc_query, hf, ht, hse]

/-- C2 witness: the amended theorem applied to `c2src` (stale stored mark,
entries snapshot present, both invoice snapshots absent). -/
theorem load_data_per_table_fallback_witness :
    cache_flag c2src false = true ∧
    load_data c2src false = .ok ((c2src.snap_entries.getD c2src.live_entries,
        if c2src.snap_entries.isSome then Origin.snapshot else Origin.fresh),
      (c2src.live_invoices, Origin.fresh), (c2src.live_invoice_lines, Origin.fresh)) :=
  ⟨rfl, (load_data_per_table_fallback c2src false).2.1 rfl rfl rfl⟩

/-! ### Claim C4: the Credit-Note fallback -/

/-- C4 (amended): for a Credit-Note row with a non-excluded member code,
when the `'SC'` lookup raises any `PySageError` — `NotFound` or
`UnsupportedField` alike, though not, e.g., a `ZeroDivisionError` —
`get_field` swallows it and returns the result of the identical `'SI'`
lookup, including propagating the retry's failure unchanged. -/
theorem get_field_creditnote_fallback (sqldata : List LedgerEntry) (row : RemRow)
    (field : String) (e : PyError)
    (hm1 : row.Member_Code ≠ "4552") (hm2 : row.Member_Code ≠ "4424")
    (hd : row.Document_Type = "Credit Note")
    (hSC : using_reference_get sqldata row.Your_Ref field 30 ["SC"] = .error e)
    (hPy : e.isPySage = true) :
    get_field sqldata row field =
      (using_reference_get sqldata row.Your_Ref field 30 ["SI"]).map some := by
  unfold get_field
  rw [if_neg (show ¬((row.Member_Code == "4552" || row.Member_Code == "4424") = true)
    by simp [hm1, hm2])]
  rw [if_neg (show ¬((row.Document_Type == "Invoice") = true) by simp [hd])]
  rw [if_pos (show (row.Document_Type == "Credit Note") = true by simp [hd])]
  rw [hSC]
  dsimp only
  rw [if_pos hPy]

/-- A sales-credit ledger line for reference `"77"` (no `'SI'` line
exists for that reference). -/
def c4e1 : LedgerEntry :=
  ⟨3001, "SC", ⟨2015, 1, 10⟩, "1100", "A4", "77", "d1", 1, -50, 0, 0, none, "x", "N", 0⟩

def C4data : List LedgerEntry := [c4e1]

/-- A Credit-Note remittance row with a non-excluded member code. -/
def c4row : RemRow := ⟨"77", "0000", "Credit Note"⟩

/-- C4 counterexample: the first (`'SC'`) lookup fails with
`UnsupportedField` — not `NotFound` — yet `get_field` swallows it and
retries as `'SI'`, surfacing the retry's `NotFound` instead of the
original error. -/
theorem get_field_swallows_unsupported_counterexample :
    using_reference_get C4data "77" "BOGUS" 30 ["SC"] =
      .error (.unsupportedField "BOGUS") ∧
    PyError.unsupportedField "BOGUS" ≠ PyError.notFound "77" ∧
    get_field C4data c4row "BOGUS" = .error (.notFound "77") := by
  refine ⟨rfl, by simp, rfl⟩

/-- C4 witness: the amended theorem applied at the same input, where the
swallowed error is an `UnsupportedField`. -/
theorem get_field_creditnote_fallback_witness :
    (c4row.Member_Code ≠ "4552" ∧ c4row.Member_Code ≠ "4424" ∧
     c4row.Document_Type = "Credit Note" ∧
     using_reference_get C4data c4row.Your_Ref "BOGUS" 30 ["SC"] =
       .error (.unsupportedField "BOGUS") ∧
     (PyError.unsupportedField "BOGUS").isPySage = true) ∧
    get_field C4data c4row "BOGUS" =
      (using_reference_get C4data c4row.Your_Ref "BOGUS" 30 ["SI"]).map some := by
  have hSC : using_reference_get C4data c4row.Your_Ref "BOGUS" 30 ["SC"] =
      .error (.unsupportedField "BOGUS") := rfl
  exact ⟨⟨by decide, by decide, rfl, hSC, rfl⟩,
    get_field_creditnote_fallback C4data c4row "BOGUS" (.unsupportedField "BOGUS")
      (by decide) (by decide) rfl hSC rfl⟩

/-! ### Lemmas about the enrichment pipeline -/

/-- Every value in a successfully computed enrichment column comes from
`get_field` on some document row. -/
theorem get_series_ok_mem (sqldata : List LedgerEntry) (rows : List RemRow)
    (field : String) (col : List (Option SageValue))
    (h : get_series sqldata rows field = .ok col) :
    ∀ v ∈ col, ∃ r ∈ rows, get_field sqldata r field = .ok v := by
  induction rows generalizing col with
  | nil =>
    unfold get_series at h
    obtain rfl : ([] : List (Option SageValue)) = col := Except.ok.inj h
    simp
  | cons r rest ih =>
    unfold get_series at h
    cases hg : get_field sqldata r field with
    | error e => rw [hg] at h; simp at h
    | ok v0 =>
      cases hs : get_series sqldata rest field with
      | error e => rw [hg, hs] at h; simp at h
      | ok vs =>
        rw [hg, hs] at h
        obtain rfl : v0 :: vs = col := Except.ok.inj h
        intro v hv
        rcases List.mem_cons.mp hv with hv0 | hvs
        · exact ⟨r, List.mem_cons_self r rest, by rw [hv0]; exact hg⟩
        · obtain ⟨r2, hr2, hgf⟩ := ih vs hs v hvs
          exact ⟨r2, List.mem_cons_of_mem r hr2, hgf⟩

/-- Any value `get_field` writes into the gross column is either `None`
(excluded row) or a money-rounded rational. -/
theorem get_field_gross_shape (sqldata : List LedgerEntry) (r : RemRow)
    (v : Option SageValue) (h : get_field sqldata r "GROSS_AMOUNT" = .ok v) :
    v = none ∨ ∃ x : Rat, v = some (.vRat (p x)) := by
  unfold get_field at h
  by_cases hm : (r.Member_Code == "4552" || r.Member_Code == "4424") = true
  · rw [if_pos hm] at h
    exact Or.inl (Except.ok.inj h).symm
  · rw [if_neg hm] at h
    by_cases hd : (r.Document_Type == "Invoice") = true
    · rw [if_pos hd] at h
      cases hu : using_reference_get sqldata r.Your_Ref "GROSS_AMOUNT" 30 ["SI"] with
      | error e => rw [hu] at h; simp [Except.map] at h
      | ok w =>
        rw [hu] at h
        obtain ⟨x, hx⟩ := using_reference_get_gross_shape sqldata r.Your_Ref 30 ["SI"] w hu
        have hv : some w = v := by simpa [Except.map] using h
        exact Or.inr ⟨x, by rw [← hv, hx]⟩
    · rw [if_neg hd] at h
      by_cases hc : (r.Document_Type == "Credit Note") = true
      · rw [if_pos hc] at h
        cases hu : using_reference_get sqldata r.Your_Ref "GROSS_AMOUNT" 30 ["SC"] with
        | ok w =>
          rw [hu] at h
          obtain ⟨x, hx⟩ := using_reference_get_gross_shape sqldata r.Your_Ref 30 ["SC"] w hu
          have hv : some w = v := by simpa using h
          exact Or.inr ⟨x, by rw [← hv, hx]⟩
        | error e =>
          rw [hu] at h
          dsimp only at h
          by_cases hp : e.isPySage = true
          · rw [if_pos hp] at h
            cases hu2 : using_reference_get sqldata r.Your_Ref "GROSS_AMOUNT" 30 ["SI"] with
            | error e2 => rw [hu2] at h; simp [Except.map] at h
            | ok w2 =>
              rw [hu2] at h
              obtain ⟨x, hx⟩ :=
                using_reference_get_gross_shape sqldata r.Your_Ref 30 ["SI"] w2 hu2
              have hv : some w2 = v := by simpa [Except.map] using h
              exact Or.inr ⟨x, by rw [← hv, hx]⟩
          · rw [if_neg hp] at h
            simp at h
      · rw [if_neg hc] at h
        exact Or.inl (Except.ok.inj h).symm

/-- Inversion of a successful column-writing phase: the gross column is the
`GROSS_AMOUNT` series, and the row table and `checked` flag are the
document's own. -/
theorem build_enriched_ok (sqldata : List LedgerEntry) (doc : RemittanceDoc)
    (ed : EnrichedDoc) (hb : build_enriched sqldata doc = .ok ed) :
    get_series sqldata doc.df "GROSS_AMOUNT" = .ok ed.Sage_Gross_Amount ∧
    ed.df = doc.df ∧ ed.checked = doc.checked := by
  unfold build_enriched at hb
  cases h1 : get_series sqldata doc.df "ALT_REF" with
  | error e => rw [h1] at hb; simp at hb
  | ok a =>
    rw [h1] at hb
    cases h2 : get_series sqldata doc.df "NET_AMOUNT" with
    | error e => rw [h2] at hb; simp at hb
    | ok n =>
      rw [h2] at hb
      cases h3 : get_series sqldata doc.df "GROSS_AMOUNT" with
      | error e => rw [h3] at hb; simp at hb
      | ok g =>
        rw [h3] at hb
        cases h4 : get_series sqldata doc.df "TAX_AMOUNT" with
        | error e => rw [h4] at hb; simp at hb
        | ok vv =>
          rw [h4] at hb
          cases h5 : get_series sqldata doc.df "TAX_RATE" with
          | error e => rw [h5] at hb; simp at hb
          | ok t =>
            rw [h5] at hb
            obtain rfl : (⟨doc.df, a, n, g, vv, div100 t, doc.checked⟩ : EnrichedDoc) = ed :=
              Except.ok.inj hb
            exact ⟨rfl, rfl, rfl⟩

/-! ### Claims C7 and C3 -/

/-- C7: whenever `enrich_remittance_doc` raises either document-level
`ReconciliationError`, the document it hands back has `checked = false`
and carries exactly the enrichment columns written by the column phase. -/
theorem enrich_flag_then_raise (sqldata : List LedgerEntry) (doc : RemittanceDoc)
    (d : EnrichedDoc)
    (h : enrich_remittance_doc sqldata doc = .internalSumError d ∨
         enrich_remittance_doc sqldata doc = .grossMismatchError d) :
    d.checked = false ∧
    ∃ ed, build_enriched sqldata doc = .ok ed ∧ d = { ed with checked := false } := by
  unfold enrich_remittance_doc at h
  cases hb : build_enriched sqldata doc with
  | error e =>
    rw [hb] at h
    rcases h with h | h <;> simp at h
  | ok ed =>
    rw [hb] at h
    dsimp only at h
    by_cases h1 : p (colSum ed.Sage_Net_Amount + colSum ed.Sage_VAT_Amount)
        ≠ p (colSum ed.Sage_Gross_Amount)
    · rw [if_pos h1] at h
      rcases h with h | h
      · obtain rfl := EnrichOutcome.internalSumError.inj h
        exact ⟨rfl, ed, rfl, rfl⟩
      · exact absurd h (by simp)
    · rw [if_neg h1] at h
      by_cases h2 : colSum ed.Sage_Gross_Amount ≠ gross_sum_ex_discount ed
      · rw [if_pos h2] at h
        rcases h with h | h
        · exact absurd h (by simp)
        · obtain rfl := EnrichOutcome.grossMismatchError.inj h
          exact ⟨rfl, ed, rfl, rfl⟩
      · rw [if_neg h2] at h
        rcases h with h | h <;> simp at h

/-- C3: given a successful column phase and a passing first check, the
second document-level check raises exactly when the money-rounded gross
sum excluding the discount-code (`'4552'`) rows differs from the
money-rounded gross sum over all rows (the code's raw comparison of the
two sums coincides with comparing their money-rounded values, because
every gross entry is already money-rounded). -/
theorem enrich_second_check_iff (sqldata : List LedgerEntry) (doc : RemittanceDoc)
    (ed : EnrichedDoc) (hb : build_enriched sqldata doc = .ok ed)
    (h1 : p (colSum ed.Sage_Net_Amount + colSum ed.Sage_VAT_Amount)
      = p (colSum ed.Sage_Gross_Amount)) :
    (∃ d, enrich_remittance_doc sqldata doc = .grossMismatchError d) ↔
      p (gross_sum_ex_discount ed) ≠ p (colSum ed.Sage_Gross_Amount) := by
  have hgross := (build_enriched_ok sqldata doc ed hb).1
  have hcolel : ∀ v ∈ ed.Sage_Gross_Amount, ∀ q : Rat, optRat v = some q → IsPenny q := by
    intro v hv q hq
    obtain ⟨r, hr, hgf⟩ :=
      get_series_ok_mem sqldata doc.df "GROSS_AMOUNT" ed.Sage_Gross_Amount hgross v hv
    rcases get_field_gross_shape sqldata r v hgf with rfl | ⟨x, rfl⟩
    · simp [optRat] at hq
    · simp only [optRat] at hq
      rw [← Option.some.inj hq]
      exact isPenny_p x
  have hall : IsPenny (colSum ed.Sage_Gross_Amount) := isPenny_colSum _ hcolel
  have hex : IsPenny (gross_sum_ex_discount ed) := by
    unfold gross_sum_ex_discount
    refine isPenny_colSum _ ?_
    intro v hv q hq
    refine hcolel v ?_ q hq
    obtain ⟨⟨a, b⟩, hmem, rfl⟩ := List.mem_map.mp hv
    exact (List.of_mem_zip (List.mem_of_mem_filter hmem)).2
  unfold enrich_remittance_doc
  rw [hb]
  dsimp only
  rw [if_neg (not_not_intro h1)]
  by_cases h2 : colSum ed.Sage_Gross_Amount ≠ gross_sum_ex_discount ed
  · rw [if_pos h2]
    constructor
    · intro _ hpe
      exact h2 ((p_eq_p_iff _ _ hex hall).mp hpe).symm
    · intro _
      exact ⟨{ ed with checked := false }, rfl⟩
  · rw [if_neg h2]
    push_neg at h2
    constructor
    · rintro ⟨d, hd⟩
      exact absurd hd (by simp)
    · intro hpe
      exact absurd (congrArg p h2.symm) hpe

/-! ### Concrete data and witness for C3 -/

def c3e1 : LedgerEntry :=
  ⟨1101, "SI", ⟨2015, 1, 10⟩, "1100", "A3", "50", "d1", 1, 120, 0, 0, none, "x", "N", 0⟩

def c3e2 : LedgerEntry :=
  ⟨1102, "SI", ⟨2015, 1, 10⟩, "2200", "A3", "50", "d2", 1, -20, 0, 0, none, "x", "N", 0⟩

def c3e3 : LedgerEntry :=
  ⟨1103, "SI", ⟨2015, 1, 10⟩, "4000", "A3", "50", "d3", 1, -100, 0, 0, none, "x", "N", 0⟩

def C3data : List LedgerEntry := [c3e1, c3e2, c3e3]

def c3row : RemRow := ⟨"50", "1", "Invoice"⟩

def c3doc : RemittanceDoc := ⟨[c3row], true⟩

/-- The enriched document produced for `c3doc`. -/
def c3ed : EnrichedDoc :=
  ⟨[c3row], [some (.vStr "A3")], [some (.vRat 100)], [some (.vRat 120)],
   [some (.vRat 20)], [some (.vRat (1/5))], true⟩

/-- C3 witness: a one-invoice document (net 100, VAT 20, gross 120) whose
column phase succeeds and whose first check passes; the claimed
equivalence is then given by the theorem (here both sides are false: the
sums agree and no error is raised). -/
theorem enrich_second_check_iff_witness :
    (build_enriched C3data c3doc = .ok c3ed ∧
     p (colSum c3ed.Sage_Net_Amount + colSum c3ed.Sage_VAT_Amount) =
       p (colSum c3ed.Sage_Gross_Amount)) ∧
    ((∃ d, enrich_remittance_doc C3data c3doc = .grossMismatchError d) ↔
      p (gross_sum_ex_discount c3ed) ≠ p (colSum c3ed.Sage_Gross_Amount)) := by
  have hf1100 : ref_filter C3data ["SI"] "50" "1100" = [c3e1] := by
    simp [ref_filter, C3data, c3e1, c3e2, c3e3]
  have hf2200 : ref_filter C3data ["SI"] "50" "2200" = [c3e2] := by
    simp [ref_filter, C3data, c3e1, c3e2, c3e3]
  have hf4000 : ref_filter C3data ["SI"] "50" "4000" = [c3e3] := by
    simp [ref_filter, C3data, c3e1, c3e2, c3e3]
  have hu_alt : using_reference_get C3data "50" "ALT_REF" 30 ["SI"] = .ok (.vStr "A3") := by
    unfold using_reference_get
    rw [hf1100]
    rfl
  have hu_net : using_reference_get C3data "50" "NET_AMOUNT" 30 ["SI"] = .ok (.vRat 100) := by
    have hred : using_reference_get C3data "50" "NET_AMOUNT" 30 ["SI"] =
        .ok (.vRat (p (sumAmount [c3e1] + sumAmount (ref_filter C3data ["SI"] "50" "2200")))) := by
      unfold using_reference_get
      rw [hf1100]
      rfl
    have hsum : sumAmount [c3e1] + sumAmount (ref_filter C3data ["SI"] "50" "2200") = 100 := by
      rw [hf2200]
      norm_num [sumAmount, c3e1, c3e2]
    rw [hred, hsum, p_fix 100 ⟨10000, by norm_num⟩]
  have hu_gross : using_reference_get C3data "50" "GROSS_AMOUNT" 30 ["SI"] = .ok (.vRat 120) := by
    have hred : using_reference_get C3data "50" "GROSS_AMOUNT" 30 ["SI"] =
        .ok (.vRat (p (sumAmount [c3e1]))) := by
      unfold using_reference_get
      rw [hf1100]
      rfl
    have hsum : sumAmount [c3e1] = 120 := by norm_num [sumAmount, c3e1]
    rw [hred, hsum, p_fix 120 ⟨12000, by norm_num⟩]
  have hu_vat : using_reference_get C3data "50" "TAX_AMOUNT" 30 ["SI"] = .ok (.vRat 20) := by
    have hred : using_reference_get C3data "50" "TAX_AMOUNT" 30 ["SI"] =
        .ok (.vRat (p (- sumAmount (ref_filter C3data ["SI"] "50" "2200")))) := by
      unfold using_reference_get
      rw [hf1100]
      rfl
    have hsum : - sumAmount (ref_filter C3data ["SI"] "50" "2200") = 20 := by
      rw [hf2200]
      norm_num [sumAmount, c3e2]
    rw [hred, hsum, p_fix 20 ⟨2000, by norm_num⟩]
  have hu_rate : using_reference_get C3data "50" "TAX_RATE" 30 ["SI"] = .ok (.vRat 20) := by
    have hred : using_reference_get C3data "50" "TAX_RATE" 30 ["SI"] =
        (if - sumAmount (ref_filter C3data ["SI"] "50" "4000") = 0 then
          (.error .zeroDivision : Except PyError SageValue)
         else .ok (.vRat (100 * (sumAmount [c3e1]
          / (- sumAmount (ref_filter C3data ["SI"] "50" "4000")) - 1)))) := by
      unfold using_reference_get
      rw [hf1100]
      rfl
    rw [hred, hf4000]
    norm_num [sumAmount, c3e1, c3e3]
  have hg_alt : get_field C3data c3row "ALT_REF" = .ok (some (.vStr "A3")) := by
    simp [get_field, c3row, hu_alt, Except.map]
  have hg_net : get_field C3data c3row "NET_AMOUNT" = .ok (some (.vRat 100)) := by
    simp [get_field, c3row, hu_net, Except.map]
  have hg_gross : get_field C3data c3row "GROSS_AMOUNT" = .ok (some (.vRat 120)) := by
    simp [get_field, c3row, hu_gross, Except.map]
  have hg_vat : get_field C3data c3row "TAX_AMOUNT" = .ok (some (.vRat 20)) := by
    simp [get_field, c3row, hu_vat, Except.map]
  have hg_rate : get_field C3data c3row "TAX_RATE" = .ok (some (.vRat 20)) := by
    simp [get_field, c3row, hu_rate, Except.map]
  have hs_alt : get_series C3data [c3row] "ALT_REF" = .ok [some (.vStr "A3")] := by
    simp [get_series, hg_alt]
  have hs_net : get_series C3data [c3row] "NET_AMOUNT" = .ok [some (.vRat 100)] := by
    simp [get_series, hg_net]
  have hs_gross : get_series C3data [c3row] "GROSS_AMOUNT" = .ok [some (.vRat 120)] := by
    simp [get_series, hg_gross]
  have hs_vat : get_series C3data [c3row] "TAX_AMOUNT" = .ok [some (.vRat 20)] := by
    simp [get_series, hg_vat]
  have hs_rate : get_series C3data [c3row] "TAX_RATE" = .ok [some (.vRat 20)] := by
    simp [get_series, hg_rate]
  have hb : build_enriched C3data c3doc = .ok c3ed := by
    unfold build_enriched
    simp only [c3doc]
    rw [hs_alt, hs_net, hs_gross, hs_vat, hs_rate]
    unfold c3ed div100
    norm_num
  have h1 : p (colSum c3ed.Sage_Net_Amount + colSum c3ed.Sage_VAT_Amount) =
      p (colSum c3ed.Sage_Gross_Amount) := by
    have hnv : colSum c3ed.Sage_Net_Amount + colSum c3ed.Sage_VAT_Amount = 120 := by
      norm_num [colSum, c3ed, optRat, List.filterMap_cons, List.filterMap_nil]
    have hg : colSum c3ed.Sage_Gross_Amount = 120 := by
      norm_num [colSum, c3ed, optRat, List.filterMap_cons, List.filterMap_nil]
    rw [hnv, hg]
  exact ⟨⟨hb, h1⟩, enrich_second_check_iff C3data c3doc c3ed hb h1⟩

/-! ### Concrete data and witness for C7 -/

/-- Debtors line with the sub-penny amount `0.006` for reference `"11"`. -/
def c7e1 : LedgerEntry :=
  ⟨2101, "SI", ⟨2015, 1, 10⟩, "1100", "A7", "11", "d1", 1, 3/500, 0, 0, none, "x", "N", 0⟩

/-- VAT-control line with amount `0.006` for reference `"11"`. -/
def c7e2 : LedgerEntry :=
  ⟨2102, "SI", ⟨2015, 1, 10⟩, "2200", "A7", "11", "d2", 1, 3/500, 0, 0, none, "x", "N", 0⟩

/-- Net sales line with amount `-1` for reference `"11"`. -/
def c7e3 : LedgerEntry :=
  ⟨2103, "SI", ⟨2015, 1, 10⟩, "4000", "A7", "11", "d3", 1, -1, 0, 0, none, "x", "N", 0⟩

def C7data : List LedgerEntry := [c7e1, c7e2, c7e3]

def c7row : RemRow := ⟨"11", "1", "Invoice"⟩

def c7doc : RemittanceDoc := ⟨[c7row], true⟩

/-- The enriched document for `c7doc`: rounding makes net `0.01`, VAT
`-0.01`, gross `0.01`, so `p(net + vat) = 0 ≠ 0.01 = p(gross)`. -/
def c7ed : EnrichedDoc :=
  ⟨[c7row], [some (.vStr "A7")], [some (.vRat (1/100))], [some (.vRat (1/100))],
   [some (.vRat (-(1/100)))], [some (.vRat (-(497/500)))], true⟩

/-- The document returned with the first `ReconciliationError`. -/
def c7d : EnrichedDoc := { c7ed with checked := false }

/-- C7 witness: the enrichment raises the internal-sum
`ReconciliationError`; the theorem then gives `checked = false` together
with the already-written columns. -/
theorem enrich_flag_then_raise_witness :
    enrich_remittance_doc C7data c7doc = .internalSumError c7d ∧
    c7d.checked = false ∧
    (∃ ed, build_enriched C7data c7doc = .ok ed ∧ c7d = { ed with checked := false }) := by
  have hf1100 : ref_filter C7data ["SI"] "11" "1100" = [c7e1] := by
    simp [ref_filter, C7data, c7e1, c7e2, c7e3]
  have hf2200 : ref_filter C7data ["SI"] "11" "2200" = [c7e2] := by
    simp [ref_filter, C7data, c7e1, c7e2, c7e3]
  have hf4000 : ref_filter C7data ["SI"] "11" "4000" = [c7e3] := by
    simp [ref_filter, C7data, c7e1, c7e2, c7e3]
  have hp_net : p (3/250 : Rat) = 1/100 := by
    rw [p_eval (3/250 : Rat) 1 (by norm_num) (by norm_num)]
    norm_num
  have hp_gross : p (3/500 : Rat) = 1/100 := by
    rw [p_eval (3/500 : Rat) 1 (by norm_num) (by norm_num)]
    norm_num
  have hp_vat : p (-(3/500) : Rat) = -(1/100) := by
    rw [p_eval (-(3/500) : Rat) (-1) (by norm_num) (by norm_num)]
    norm_num
  have hu_alt : using_reference_get C7data "11" "ALT_REF" 30 ["SI"] = .ok (.vStr "A7") := by
    unfold using_reference_get
    rw [hf1100]
    rfl
  have hu_net : using_reference_get C7data "11" "NET_AMOUNT" 30 ["SI"] =
      .ok (.vRat (1/100)) := by
    have hred : using_reference_get C7data "11" "NET_AMOUNT" 30 ["SI"] =
        .ok (.vRat (p (sumAmount [c7e1] + sumAmount (ref_filter C7data ["SI"] "11" "2200")))) := by
      unfold using_reference_get
      rw [hf1100]
      rfl
    have hsum : sumAmount [c7e1] + sumAmount (ref_filter C7data ["SI"] "11" "2200") = 3/250 := by
      rw [hf2200]
      norm_num [sumAmount, c7e1, c7e2]
    rw [hred, hsum, hp_net]
  have hu_gross : using_reference_get C7data "11" "GROSS_AMOUNT" 30 ["SI"] =
      .ok (.vRat (1/100)) := by
    have hred : using_reference_get C7data "11" "GROSS_AMOUNT" 30 ["SI"] =
        .ok (.vRat (p (sumAmount [c7e1]))) := by
      unfold using_reference_get
      rw [hf1100]
      rfl
    have hsum : sumAmount [c7e1] = 3/500 := by norm_num [sumAmount, c7e1]
    rw [hred, hsum, hp_gross]
  have hu_vat : using_reference_get C7data "11" "TAX_AMOUNT" 30 ["SI"] =
      .ok (.vRat (-(1/100))) := by
    have hred : using_reference_get C7data "11" "TAX_AMOUNT" 30 ["SI"] =
        .ok (.vRat (p (- sumAmount (ref_filter C7data ["SI"] "11" "2200")))) := by
      unfold using_reference_get
      rw [hf1100]
      rfl
    have hsum : - sumAmount (ref_filter C7data ["SI"] "11" "2200") = -(3/500) := by
      rw [hf2200]
      norm_num [sumAmount, c7e2]
    rw [hred, hsum, hp_vat]
  have hu_rate : using_reference_get C7data "11" "TAX_RATE" 30 ["SI"] =
      .ok (.vRat (-(497/5))) := by
    have hred : using_reference_get C7data "11" "TAX_RATE" 30 ["SI"] =
        (if - sumAmount (ref_filter C7data ["SI"] "11" "4000") = 0 then
          (.error .zeroDivision : Except PyError SageValue)
         else .ok (.vRat (100 * (sumAmount [c7e1]
          / (- sumAmount (ref_filter C7data ["SI"] "11" "4000")) - 1)))) := by
      unfold using_reference_get
      rw [hf1100]
      rfl
    rw [hred, hf4000]
    norm_num [sumAmount, c7e1, c7e3]
  have hg_alt : get_field C7data c7row "ALT_REF" = .ok (some (.vStr "A7")) := by
    simp [get_field, c7row, hu_alt, Except.map]
  have hg_net : get_field C7data c7row "NET_AMOUNT" = .ok (some (.vRat (1/100))) := by
    simp [get_field, c7row, hu_net, Except.map]
  have hg_gross : get_field C7data c7row "GROSS_AMOUNT" = .ok (some (.vRat (1/100))) := by
    simp [get_field, c7row, hu_gross, Except.map]
  have hg_vat : get_field C7data c7row "TAX_AMOUNT" = .ok (some (.vRat (-(1/100)))) := by
    simp [get_field, c7row, hu_vat, Except.map]
  have hg_rate : get_field C7data c7row "TAX_RATE" = .ok (some (.vRat (-(497/5)))) := by
    simp [get_field, c7row, hu_rate, Except.map]
  have hs_alt : get_series C7data [c7row] "ALT_REF" = .ok [some (.vStr "A7")] := by
    simp [get_series, hg_alt]
  have hs_net : get_series C7data [c7row] "NET_AMOUNT" = .ok [some (.vRat (1/100))] := by
    simp [get_series, hg_net]
  have hs_gross : get_series C7data [c7row] "GROSS_AMOUNT" = .ok [some (.vRat (1/100))] := by
    simp [get_series, hg_gross]
  have hs_vat : get_series C7data [c7row] "TAX_AMOUNT" = .ok [some (.vRat (-(1/100)))] := by
    simp [get_series, hg_vat]
  have hs_rate : get_series C7data [c7row] "TAX_RATE" = .ok [some (.vRat (-(497/5)))] := by
    simp [get_series, hg_rate]
  have hb : build_enriched C7data c7doc = .ok c7ed := by
    unfold build_enriched
    simp only [c7doc]
    rw [hs_alt, hs_net, hs_gross, hs_vat, hs_rate]
    unfold c7ed div100
    norm_num
  have hcond : p (colSum c7ed.Sage_Net_Amount + colSum c7ed.Sage_VAT_Amount) ≠
      p (colSum c7ed.Sage_Gross_Amount) := by
    have hnv : colSum c7ed.Sage_Net_Amount + colSum c7ed.Sage_VAT_Amount = 0 := by
      norm_num [colSum, c7ed, optRat, List.filterMap_cons, List.filterMap_nil]
    have hg : colSum c7ed.Sage_Gross_Amount = 1/100 := by
      norm_num [colSum, c7ed, optRat, List.filterMap_cons, List.filterMap_nil]
    rw [hnv, hg, p_fix 0 ⟨0, by norm_num⟩, p_fix (1/100 : Rat) ⟨1, by norm_num⟩]
    norm_num
  have henr : enrich_remittance_doc C7data c7doc = .internalSumError c7d := by
    unfold enrich_remittance_doc
    rw [hb]
    dsimp only
    rw [if_pos hcond]
    rfl
  have hmain := enrich_flag_then_raise C7data c7doc c7d (Or.inl henr)
  exact ⟨henr, hmain.1, hmain.2⟩
